import Mathlib

/-!
NAT conntrack probes and network-namespace accessors

Shallow embedding of

* `pkg/network/ebpf/c/runtime/conntrack.c`: the two kprobe handlers
  `kprobe___nf_conntrack_hash_insert` and `kprobe_ctnetlink_fill_info`;
* `pkg/network/ebpf/c/netns.h`: the three build variants of
  `get_netns_from_sock`.

Machine integers are natural numbers with explicit truncation.  The BPF maps
touched by the handlers are threaded through as an explicit `State`.
-/

namespace Conntrack

/-- Modelled from the spec: the value type `conntrack_tuple_t` (declared in a
header that is not among the files embedded here).  The spec describes it as
source address, destination address, source port, destination port, transport
protocol and namespace identifier, compared by equality of all fields. -/
structure conntrack_tuple_t where
  saddr : Nat
  daddr : Nat
  sport : Nat
  dport : Nat
  proto : Nat
  netns : Nat
deriving DecidableEq, Repr

/-- The C initialiser `= {}`: every field zero. -/
def conntrack_tuple_t.zero : conntrack_tuple_t := ⟨0, 0, 0, 0, 0, 0⟩

/-- The `conntrack` BPF map: a finite partial mapping from tuples to tuples,
seen through its lookup function. -/
abbrev conntrack_map := conntrack_tuple_t → Option conntrack_tuple_t

/-- Modelled from the spec: `bpf_map_update_with_telemetry(conntrack, &key, &value, BPF_ANY)`.
The macro and the map declaration are not among the files embedded here.  The
spec says entries are upserted, overwrite-on-conflict, never merged; `BPF_ANY`
at the call site asks for create-or-update.  The handlers discard the result of
the update, so the model has no result either; the map is taken to accept
every write. -/
def bpf_map_update_with_telemetry (m : conntrack_map) (key value : conntrack_tuple_t) :
    conntrack_map :=
  fun k => if k = key then some value else m k

/-- Modelled from the spec: `increment_telemetry_registers_count()` (from
`conntrack/helpers.h`, not among the files embedded here).  The spec says the
registers counter is incremented by the count of entries written, always 2 on
success.  The handlers call it once, without argument, after the two writes. -/
def increment_telemetry_registers_count (registers : Nat) : Nat :=
  registers + 2

/-- The messages the handlers pass to `log_debug`, with their arguments. -/
inductive log_line where
  | hash_insert (netns status : Nat)
  | fill_info_skip
  | fill_info (netns status : Nat)
deriving DecidableEq, Repr

/-- Everything the handlers can change: the `conntrack` map, the registers
telemetry counter and the debug log. -/
structure State where
  conntrack : conntrack_map
  registers : Nat
  debug_log : List log_line

/-- What the handlers take from their surroundings: kernel constants, the
load-time constant `systemprobe_pid()`, and the helpers of `conntrack.h`
reading a connection record of type `nf_conn`. -/
structure Kernel (nf_conn : Type) where
  /-- Constant `IPS_CONFIRMED` of the kernel header named in the include list. -/
  IPS_CONFIRMED : Nat
  /-- Constant `IPS_NAT_MASK` of the same header. -/
  IPS_NAT_MASK : Nat
  /-- Value of `systemprobe_pid()`. -/
  systemprobe_pid : Nat
  /-- The bytes `BPF_CORE_READ_INTO(&status, ct, status)` delivers, `none`
  when the read faults. -/
  core_read_status : nf_conn → Option Nat
  /-- Value of `get_netns(ct)`, used for logging only. -/
  get_netns : nf_conn → Nat
  /-- Helper `nf_conn_to_conntrack_tuples(ct, &orig, &reply)`: the return code and
  the contents of `orig` and `reply` afterwards, given their contents before. -/
  nf_conn_to_conntrack_tuples :
    nf_conn → conntrack_tuple_t → conntrack_tuple_t → Int × conntrack_tuple_t × conntrack_tuple_t

/-- Lines 17-18 and 47-48: `u32 status = 0; BPF_CORE_READ_INTO(&status, ct, status);`.
A faulting read leaves the zero. -/
def read_status {nf_conn : Type} (K : Kernel nf_conn) (ct : nf_conn) : Nat :=
  match K.core_read_status ct with
  | some v => v % 2 ^ 32
  | none => 0

/-- Appends one message to the debug log. -/
def log_debug (st : State) (l : log_line) : State :=
  { st with debug_log := st.debug_log ++ [l] }

/-- Handler `kprobe/__nf_conntrack_hash_insert` (conntrack.c lines 15-35). -/
def kprobe___nf_conntrack_hash_insert {nf_conn : Type} (K : Kernel nf_conn)
    (ct : nf_conn) (st : State) : State :=
  let status := read_status K ct
  if status &&& K.IPS_CONFIRMED = 0 ∨ status &&& K.IPS_NAT_MASK = 0 then
    st
  else
    let st1 := log_debug st (log_line.hash_insert (K.get_netns ct) status)
    match K.nf_conn_to_conntrack_tuples ct conntrack_tuple_t.zero conntrack_tuple_t.zero with
    | (rc, orig, reply) =>
      if rc ≠ 0 then
        st1
      else
        let st2 := { st1 with conntrack := bpf_map_update_with_telemetry st1.conntrack orig reply }
        let st3 := { st2 with conntrack := bpf_map_update_with_telemetry st2.conntrack reply orig }
        { st3 with registers := increment_telemetry_registers_count st3.registers }

/-- Line 39: `u32 pid = bpf_get_current_pid_tgid() >> 32;` for a 64-bit helper result. -/
def fill_info_pid (pid_tgid : Nat) : Nat :=
  ((pid_tgid % 2 ^ 64) >>> 32) % 2 ^ 32

/-- Handler `kprobe/ctnetlink_fill_info` (conntrack.c lines 37-65).  The
argument `pid_tgid` is the result of `bpf_get_current_pid_tgid()`, and `ct` is
the fifth argument of the probed function. -/
def kprobe_ctnetlink_fill_info {nf_conn : Type} (K : Kernel nf_conn)
    (pid_tgid : Nat) (ct : nf_conn) (st : State) : State :=
  let pid := fill_info_pid pid_tgid
  if pid ≠ K.systemprobe_pid then
    log_debug st log_line.fill_info_skip
  else
    let status := read_status K ct
    if status &&& K.IPS_CONFIRMED = 0 ∨ status &&& K.IPS_NAT_MASK = 0 then
      st
    else
      let st1 := log_debug st (log_line.fill_info (K.get_netns ct) status)
      match K.nf_conn_to_conntrack_tuples ct conntrack_tuple_t.zero conntrack_tuple_t.zero with
      | (rc, orig, reply) =>
        if rc ≠ 0 then
          st1
        else
          let st2 := { st1 with conntrack := bpf_map_update_with_telemetry st1.conntrack orig reply }
          let st3 := { st2 with conntrack := bpf_map_update_with_telemetry st2.conntrack reply orig }
          { st3 with registers := increment_telemetry_registers_count st3.registers }

/-- The states a reader can observe while `kprobe___nf_conntrack_hash_insert`
runs, oldest first, one per effect of the handler: the state on entry, after
the log message, after the first map update, after the second map update,
after the counter increment. -/
def kprobe___nf_conntrack_hash_insert_steps {nf_conn : Type} (K : Kernel nf_conn)
    (ct : nf_conn) (st : State) : List State :=
  let status := read_status K ct
  if status &&& K.IPS_CONFIRMED = 0 ∨ status &&& K.IPS_NAT_MASK = 0 then
    [st]
  else
    let st1 := log_debug st (log_line.hash_insert (K.get_netns ct) status)
    match K.nf_conn_to_conntrack_tuples ct conntrack_tuple_t.zero conntrack_tuple_t.zero with
    | (rc, orig, reply) =>
      if rc ≠ 0 then
        [st, st1]
      else
        let st2 := { st1 with conntrack := bpf_map_update_with_telemetry st1.conntrack orig reply }
        let st3 := { st2 with conntrack := bpf_map_update_with_telemetry st2.conntrack reply orig }
        let st4 := { st3 with registers := increment_telemetry_registers_count st3.registers }
        [st, st1, st2, st3, st4]

/-- The states a reader can observe while `kprobe_ctnetlink_fill_info` runs,
oldest first, one per effect of the handler. -/
def kprobe_ctnetlink_fill_info_steps {nf_conn : Type} (K : Kernel nf_conn)
    (pid_tgid : Nat) (ct : nf_conn) (st : State) : List State :=
  let pid := fill_info_pid pid_tgid
  if pid ≠ K.systemprobe_pid then
    [st, log_debug st log_line.fill_info_skip]
  else
    let status := read_status K ct
    if status &&& K.IPS_CONFIRMED = 0 ∨ status &&& K.IPS_NAT_MASK = 0 then
      [st]
    else
      let st1 := log_debug st (log_line.fill_info (K.get_netns ct) status)
      match K.nf_conn_to_conntrack_tuples ct conntrack_tuple_t.zero conntrack_tuple_t.zero with
      | (rc, orig, reply) =>
        if rc ≠ 0 then
          [st, st1]
        else
          let st2 := { st1 with conntrack := bpf_map_update_with_telemetry st1.conntrack orig reply }
          let st3 := { st2 with conntrack := bpf_map_update_with_telemetry st2.conntrack reply orig }
          let st4 := { st3 with registers := increment_telemetry_registers_count st3.registers }
          [st, st1, st2, st3, st4]

/-! ### Concrete scenario of the spec -/

/-- Dotted-quad IPv4 address as a number. -/
def ipv4 (a b c d : Nat) : Nat := a * 2 ^ 24 + b * 2 ^ 16 + c * 2 ^ 8 + d

/-- Original tuple `10.0.0.5:40000 -> 93.184.216.34:80`, TCP, namespace 4026531840. -/
def orig0 : conntrack_tuple_t :=
  ⟨ipv4 10 0 0 5, ipv4 93 184 216 34, 40000, 80, 6, 4026531840⟩

/-- Reply tuple `93.184.216.34:80 -> 203.0.113.9:40000`, TCP, namespace 4026531840. -/
def reply0 : conntrack_tuple_t :=
  ⟨ipv4 93 184 216 34, ipv4 203 0 113 9, 80, 40000, 6, 4026531840⟩

/-- A connection record reduced to what the handlers read from it. -/
structure sample_conn where
  status : Nat
  orig : conntrack_tuple_t
  reply : conntrack_tuple_t
  readable : Bool

/-- Test kernel: the constants of the Linux header (`IPS_CONFIRMED = 8`,
`IPS_NAT_MASK = 48`), agent pid 4242, and an extractor that copies the two
tuples of a readable record and reports 1 for an unreadable one. -/
def K0 : Kernel sample_conn where
  IPS_CONFIRMED := 8
  IPS_NAT_MASK := 48
  systemprobe_pid := 4242
  core_read_status := fun ct => some ct.status
  get_netns := fun ct => ct.orig.netns
  nf_conn_to_conntrack_tuples := fun ct o r =>
    if ct.readable then (0, ct.orig, ct.reply) else (1, o, r)

/-- Record with status `CONFIRMED | SRC_NAT` and the tuples of the scenario. -/
def ct_nat : sample_conn := ⟨8 ||| 16, orig0, reply0, true⟩

/-- The same record with status `CONFIRMED` only. -/
def ct_confirmed_only : sample_conn := ⟨8, orig0, reply0, true⟩

/-- The same record whose tuples cannot be read. -/
def ct_unreadable : sample_conn := ⟨8 ||| 16, orig0, reply0, false⟩

/-- State with an empty table, a zero counter and an empty log. -/
def st_empty : State := ⟨fun _ => none, 0, []⟩

/-- An unrelated tuple. -/
def other0 : conntrack_tuple_t :=
  ⟨ipv4 192 168 1 2, ipv4 8 8 8 8, 5353, 53, 17, 4026531840⟩

/-- State whose table maps `orig0` to itself and `other0` to `orig0`, with
counter 10. -/
def st_busy : State :=
  ⟨fun k => if k = orig0 then some orig0 else if k = other0 then some orig0 else none, 10, []⟩

/-- A `bpf_get_current_pid_tgid()` value of the agent: tgid 4242, thread 7. -/
def pid_tgid_agent : Nat := 4242 * 2 ^ 32 + 7

/-- The agent again, from thread 12345. -/
def pid_tgid_agent_thread : Nat := 4242 * 2 ^ 32 + 12345

/-- A `bpf_get_current_pid_tgid()` value of another process: tgid 99, thread 7. -/
def pid_tgid_other : Nat := 99 * 2 ^ 32 + 7

end Conntrack

namespace Netns

/-- Kernel memory as the BPF read helper sees it: `read size addr` is the
unsigned value of the `size` bytes at address `addr`, or `none` when the
access faults. -/
structure KernelMem where
  read : Nat → Nat → Option Nat

/-- The helper `bpf_probe_read_kernel(dst, size, src)` behind
`bpf_probe_read_kernel_with_telemetry`, `BPF_CORE_READ_INTO` and
`BPF_PROBE_READ_INTO`, for a destination that holds zero before the call (as
every destination in `netns.h` does): the value of the destination afterwards.
Addresses are 64-bit; a faulting read leaves zero in the destination and the
program goes on. -/
def bpf_probe_read_kernel (M : KernelMem) (size : Nat) (src : Nat) : Nat :=
  match M.read size (src % 2 ^ 64) with
  | some v => v % 2 ^ (8 * size)
  | none => 0

/-- The struct layout of the kernel the program meets (for CO-RE, its type
information; for runtime compilation, its headers).  A member that the kernel
does not have is `none`; a member it has comes with its byte offset. -/
structure KernelLayout where
  /-- Whether `sk->sk_net.net` exists, that is whether `skc_net` is a
  `possible_net_t` holding the pointer. -/
  sk_net_net : Bool
  /-- Offset of `__sk_common.skc_net` (the macro `sk_net`) in `struct sock`. -/
  sk_net : Option Nat
  /-- Offset of `ns.inum` in `struct net`, when `struct net` has a member `ns`. -/
  ns_inum : Option Nat
  /-- Offset of `proc_inum` in `struct net`, when `struct net` has it. -/
  proc_inum : Option Nat

/-- What a runtime build takes from the kernel source it is compiled against,
beside the struct layout: whether `CONFIG_NET_NS` is defined, and whether the
header `<linux/ns_common.h>` exists. -/
structure Kconfig where
  CONFIG_NET_NS : Bool
  ns_common_h : Bool

/-- Line 8 of netns.h, `#include <linux/ns_common.h>`, which every build other
than `COMPILE_CORE` passes through before it reaches the function: the value
of `defined(_LINUX_NS_COMMON_H)` after that line.  A header that exists
defines its guard, as the comment on the line says; a header that does not
exist stops the build, hence `none`. -/
def LINUX_NS_COMMON_H (cfg : Kconfig) : Option Bool :=
  if cfg.ns_common_h then some true else none

/-- Offset of the inode number in `struct net` for a layout: `ns.inum` when
present, else `proc_inum`. -/
def KernelLayout.ino (L : KernelLayout) : Option Nat :=
  match L.ns_inum with
  | some o => some o
  | none => L.proc_inum

/-- The configured offsets `offset_netns()` and `offset_ino()` are the ones of
the running kernel. -/
def offsets_correct (L : KernelLayout) (offset_netns offset_ino : Nat) : Prop :=
  L.sk_net = some offset_netns ∧ L.ino = some offset_ino

instance (L : KernelLayout) (a b : Nat) : Decidable (offsets_correct L a b) := by
  unfold offsets_correct; infer_instance

end Netns

namespace Netns.COMPILE_PREBUILT

/-- Function `get_netns_from_sock` under `COMPILE_PREBUILT` (netns.h lines 19-25), with
`sizeof(void*) = 8`. -/
def get_netns_from_sock (M : KernelMem) (offset_netns offset_ino : Nat) (sk : Nat) : Nat :=
  let skc_net := bpf_probe_read_kernel M 8 (sk + offset_netns)
  let net_ns_inum := bpf_probe_read_kernel M 4 (skc_net + offset_ino)
  net_ns_inum

end Netns.COMPILE_PREBUILT

namespace Netns.COMPILE_CORE

/-- Function `get_netns_from_sock` under `COMPILE_CORE` (netns.h lines 51-63).  The
offsets of the members read are those of the running kernel (CO-RE
relocation).  The result is `none` when the branch taken reads a member the
running kernel does not have: the relocation cannot be resolved and the
program is not loaded. -/
def get_netns_from_sock (M : KernelMem) (L : KernelLayout) (sk : Nat) : Option Nat :=
  if L.sk_net_net || L.ns_inum.isSome then do
    let o_net ← L.sk_net
    let ns := bpf_probe_read_kernel M 8 (sk + o_net)
    let o_ino ← L.ns_inum
    pure (bpf_probe_read_kernel M 4 (ns + o_ino))
  else if L.proc_inum.isSome then do
    let o_net ← L.sk_net
    let ns := bpf_probe_read_kernel M 8 (sk + o_net)
    let o_ino ← L.proc_inum
    pure (bpf_probe_read_kernel M 4 (ns + o_ino))
  else
    pure 0

end Netns.COMPILE_CORE

namespace Netns.COMPILE_RUNTIME

/-- Function `get_netns_from_sock` under `COMPILE_RUNTIME` (netns.h lines 70-89),
preceded by the include of line 8 that decides `_LINUX_NS_COMMON_H`.  The
offsets are those of the headers compiled against.  The result is `none`
when the build fails: the included header is missing, or the code selected
by the preprocessor names a member the headers do not have. -/
def get_netns_from_sock (M : KernelMem) (cfg : Kconfig) (L : KernelLayout) (sk : Nat) :
    Option Nat := do
  let ns_common_h_seen ← LINUX_NS_COMMON_H cfg
  if cfg.CONFIG_NET_NS then do
    let o_net ← L.sk_net
    let ns := bpf_probe_read_kernel M 8 (sk + o_net)
    if ns_common_h_seen then do
      let o_ino ← L.ns_inum
      pure (bpf_probe_read_kernel M 4 (ns + o_ino))
    else do
      let o_ino ← L.proc_inum
      pure (bpf_probe_read_kernel M 4 (ns + o_ino))
  else
    pure 0

end Netns.COMPILE_RUNTIME

namespace Netns

/-! ### Synthetic kernels -/

/-- A kernel memory with one socket at address 1000: the namespace pointer
5000 sits at offset 48 of the socket and the inode number 4026531840 at
offset 120 of the namespace; offset 16 of the socket holds another pointer,
9000, and offset 8 behind that one holds 7.  Everything else faults. -/
def M0 : KernelMem where
  read := fun size addr =>
    if size = 8 ∧ addr = 1048 then some 5000
    else if size = 4 ∧ addr = 5120 then some 4026531840
    else if size = 8 ∧ addr = 1016 then some 9000
    else if size = 4 ∧ addr = 9008 then some 7
    else none

/-- Current layout: `possible_net_t` at offset 48, `ns.inum` at offset 120. -/
def L_possible_net : KernelLayout := ⟨true, some 48, some 120, none⟩

/-- Intermediate layout: plain pointer `skc_net`, `ns.inum`. -/
def L_ptr_ns : KernelLayout := ⟨false, some 48, some 120, none⟩

/-- Oldest layout: plain pointer `skc_net`, `proc_inum`. -/
def L_proc_inum : KernelLayout := ⟨false, some 48, none, some 120⟩

/-- A layout with none of the probed members. -/
def L_none : KernelLayout := ⟨false, none, none, none⟩

/-- Kernel source with namespaces and `ns_common.h`. -/
def cfg_ns : Kconfig := ⟨true, true⟩

/-- Kernel source with namespaces, from before `ns_common.h` existed. -/
def cfg_old : Kconfig := ⟨true, false⟩

/-- Kernel source with `ns_common.h` and without `CONFIG_NET_NS`. -/
def cfg_no_ns : Kconfig := ⟨false, true⟩

end Netns

/-! ## Theorems: the translation table updater -/

namespace Conntrack

/-- The state both handlers leave after a successful upsert, apart from the log. -/
theorem hash_insert_success {nf_conn : Type} (K : Kernel nf_conn) (ct : nf_conn) (st : State)
    (orig reply : conntrack_tuple_t)
    (hc : read_status K ct &&& K.IPS_CONFIRMED ≠ 0)
    (hn : read_status K ct &&& K.IPS_NAT_MASK ≠ 0)
    (hx : K.nf_conn_to_conntrack_tuples ct conntrack_tuple_t.zero conntrack_tuple_t.zero
      = (0, orig, reply)) :
    kprobe___nf_conntrack_hash_insert K ct st =
      { conntrack := bpf_map_update_with_telemetry
          (bpf_map_update_with_telemetry st.conntrack orig reply) reply orig
        registers := st.registers + 2
        debug_log := st.debug_log ++
          [log_line.hash_insert (K.get_netns ct) (read_status K ct)] } := by
  unfold kprobe___nf_conntrack_hash_insert
  simp [hc, hn, hx, log_debug, increment_telemetry_registers_count]

/-- The dump-path handler called by the agent does the same upsert. -/
theorem fill_info_success {nf_conn : Type} (K : Kernel nf_conn) (ct : nf_conn) (st : State)
    (pid_tgid : Nat) (orig reply : conntrack_tuple_t)
    (hp : fill_info_pid pid_tgid = K.systemprobe_pid)
    (hc : read_status K ct &&& K.IPS_CONFIRMED ≠ 0)
    (hn : read_status K ct &&& K.IPS_NAT_MASK ≠ 0)
    (hx : K.nf_conn_to_conntrack_tuples ct conntrack_tuple_t.zero conntrack_tuple_t.zero
      = (0, orig, reply)) :
    kprobe_ctnetlink_fill_info K pid_tgid ct st =
      { conntrack := bpf_map_update_with_telemetry
          (bpf_map_update_with_telemetry st.conntrack orig reply) reply orig
        registers := st.registers + 2
        debug_log := st.debug_log ++
          [log_line.fill_info (K.get_netns ct) (read_status K ct)] } := by
  unfold kprobe_ctnetlink_fill_info
  simp [hp, hc, hn, hx, log_debug, increment_telemetry_registers_count]

/-- Lookups after the two writes of an upsert. -/
theorem upsert_pair_lookup (m : conntrack_map) (orig reply : conntrack_tuple_t) :
    bpf_map_update_with_telemetry (bpf_map_update_with_telemetry m orig reply) reply orig orig
        = some reply ∧
    bpf_map_update_with_telemetry (bpf_map_update_with_telemetry m orig reply) reply orig reply
        = some orig := by
  unfold bpf_map_update_with_telemetry
  by_cases h : orig = reply
  · subst h; simp
  · simp [h]

/-- Keys other than the two written keep their entry. -/
theorem upsert_pair_frame (m : conntrack_map) (orig reply k : conntrack_tuple_t)
    (h1 : k ≠ orig) (h2 : k ≠ reply) :
    bpf_map_update_with_telemetry (bpf_map_update_with_telemetry m orig reply) reply orig k
        = m k := by
  unfold bpf_map_update_with_telemetry
  simp [h1, h2]

/-- Writing the same pair a second time changes nothing. -/
theorem upsert_pair_idem (m : conntrack_map) (orig reply : conntrack_tuple_t) :
    bpf_map_update_with_telemetry (bpf_map_update_with_telemetry
      (bpf_map_update_with_telemetry (bpf_map_update_with_telemetry m orig reply) reply orig)
        orig reply) reply orig
      = bpf_map_update_with_telemetry (bpf_map_update_with_telemetry m orig reply) reply orig := by
  funext k
  unfold bpf_map_update_with_telemetry
  by_cases h2 : k = reply
  · simp [h2]
  · by_cases h1 : k = orig
    · simp [h1]
    · simp [h1, h2]

/-- An unreadable record and a record without NAT bit leave the empty state
as it is, apart from the log; the scenario record fills it. -/
theorem scenario_eval :
    (kprobe___nf_conntrack_hash_insert K0 ct_unreadable st_empty).conntrack orig0 = none ∧
    (kprobe___nf_conntrack_hash_insert K0 ct_unreadable st_empty).registers = 0 ∧
    (kprobe___nf_conntrack_hash_insert K0 ct_confirmed_only st_empty).conntrack orig0 = none ∧
    (kprobe___nf_conntrack_hash_insert K0 ct_nat st_empty).conntrack orig0 = some reply0 ∧
    (kprobe___nf_conntrack_hash_insert K0 ct_nat st_empty).conntrack reply0 = some orig0 ∧
    (kprobe___nf_conntrack_hash_insert K0 ct_nat st_empty).conntrack other0 = none ∧
    (kprobe_ctnetlink_fill_info K0 pid_tgid_other ct_nat st_empty).conntrack orig0 = none ∧
    (kprobe_ctnetlink_fill_info K0 pid_tgid_agent ct_nat st_empty).conntrack orig0
      = some reply0 := by
  decide

/-- Claim C1.  For a record with the CONFIRMED bit and a NAT bit set whose
extraction returns 0 with tuples `orig` and `reply`, and for every prior
state: after one run of the confirmation-path handler, and after one run of
the dump-path handler called by the agent pid, the table maps `orig` to
`reply` and `reply` to `orig`, hence looking up twice from either of them
comes back to it. -/
theorem C1_round_trip {nf_conn : Type} (K : Kernel nf_conn) (ct : nf_conn) (st : State)
    (pid_tgid : Nat) (orig reply : conntrack_tuple_t)
    (hc : read_status K ct &&& K.IPS_CONFIRMED ≠ 0)
    (hn : read_status K ct &&& K.IPS_NAT_MASK ≠ 0)
    (hx : K.nf_conn_to_conntrack_tuples ct conntrack_tuple_t.zero conntrack_tuple_t.zero
      = (0, orig, reply)) :
    ((kprobe___nf_conntrack_hash_insert K ct st).conntrack orig = some reply ∧
      (kprobe___nf_conntrack_hash_insert K ct st).conntrack reply = some orig ∧
      ((kprobe___nf_conntrack_hash_insert K ct st).conntrack orig).bind
        (kprobe___nf_conntrack_hash_insert K ct st).conntrack = some orig ∧
      ((kprobe___nf_conntrack_hash_insert K ct st).conntrack reply).bind
        (kprobe___nf_conntrack_hash_insert K ct st).conntrack = some reply) ∧
    (fill_info_pid pid_tgid = K.systemprobe_pid →
      (kprobe_ctnetlink_fill_info K pid_tgid ct st).conntrack orig = some reply ∧
      (kprobe_ctnetlink_fill_info K pid_tgid ct st).conntrack reply = some orig ∧
      ((kprobe_ctnetlink_fill_info K pid_tgid ct st).conntrack orig).bind
        (kprobe_ctnetlink_fill_info K pid_tgid ct st).conntrack = some orig ∧
      ((kprobe_ctnetlink_fill_info K pid_tgid ct st).conntrack reply).bind
        (kprobe_ctnetlink_fill_info K pid_tgid ct st).conntrack = some reply) := by
  obtain ⟨h1, h2⟩ := upsert_pair_lookup st.conntrack orig reply
  refine ⟨?_, fun hp => ?_⟩
  · rw [hash_insert_success K ct st orig reply hc hn hx]
    simp only [h1, h2, Option.some_bind, and_self]
  · rw [fill_info_success K ct st pid_tgid orig reply hp hc hn hx]
    simp only [h1, h2, Option.some_bind, and_self]

/-- The scenario of the spec: status CONFIRMED and SRC_NAT, original tuple
`10.0.0.5:40000 -> 93.184.216.34:80`, reply tuple
`93.184.216.34:80 -> 203.0.113.9:40000`, empty prior table. -/
theorem C1_round_trip_witness :
    (read_status K0 ct_nat &&& K0.IPS_CONFIRMED ≠ 0 ∧
      read_status K0 ct_nat &&& K0.IPS_NAT_MASK ≠ 0 ∧
      K0.nf_conn_to_conntrack_tuples ct_nat conntrack_tuple_t.zero conntrack_tuple_t.zero
        = (0, orig0, reply0)) ∧
    ((kprobe___nf_conntrack_hash_insert K0 ct_nat st_empty).conntrack orig0 = some reply0 ∧
      (kprobe___nf_conntrack_hash_insert K0 ct_nat st_empty).conntrack reply0 = some orig0 ∧
      ((kprobe___nf_conntrack_hash_insert K0 ct_nat st_empty).conntrack orig0).bind
        (kprobe___nf_conntrack_hash_insert K0 ct_nat st_empty).conntrack = some orig0 ∧
      ((kprobe___nf_conntrack_hash_insert K0 ct_nat st_empty).conntrack reply0).bind
        (kprobe___nf_conntrack_hash_insert K0 ct_nat st_empty).conntrack = some reply0) ∧
    (fill_info_pid pid_tgid_agent = K0.systemprobe_pid →
      (kprobe_ctnetlink_fill_info K0 pid_tgid_agent ct_nat st_empty).conntrack orig0
        = some reply0 ∧
      (kprobe_ctnetlink_fill_info K0 pid_tgid_agent ct_nat st_empty).conntrack reply0
        = some orig0 ∧
      ((kprobe_ctnetlink_fill_info K0 pid_tgid_agent ct_nat st_empty).conntrack orig0).bind
        (kprobe_ctnetlink_fill_info K0 pid_tgid_agent ct_nat st_empty).conntrack = some orig0 ∧
      ((kprobe_ctnetlink_fill_info K0 pid_tgid_agent ct_nat st_empty).conntrack reply0).bind
        (kprobe_ctnetlink_fill_info K0 pid_tgid_agent ct_nat st_empty).conntrack
          = some reply0) :=
  ⟨⟨by decide, by decide, by decide⟩,
    C1_round_trip K0 ct_nat st_empty pid_tgid_agent orig0 reply0
      (by decide) (by decide) (by decide)⟩

/-- Claim C2.  For both handlers, every prior state and every record: when
the status lacks the CONFIRMED bit, or has no NAT bit, or the extraction
returns a non-zero code, the translation table and the registers counter
after the call are those before it. -/
theorem C2_early_return_no_mutation {nf_conn : Type} (K : Kernel nf_conn) (ct : nf_conn)
    (st : State) (pid_tgid : Nat)
    (h : read_status K ct &&& K.IPS_CONFIRMED = 0 ∨
      read_status K ct &&& K.IPS_NAT_MASK = 0 ∨
      (K.nf_conn_to_conntrack_tuples ct conntrack_tuple_t.zero conntrack_tuple_t.zero).1 ≠ 0) :
    ((kprobe___nf_conntrack_hash_insert K ct st).conntrack = st.conntrack ∧
      (kprobe___nf_conntrack_hash_insert K ct st).registers = st.registers) ∧
    ((kprobe_ctnetlink_fill_info K pid_tgid ct st).conntrack = st.conntrack ∧
      (kprobe_ctnetlink_fill_info K pid_tgid ct st).registers = st.registers) := by
  unfold kprobe___nf_conntrack_hash_insert kprobe_ctnetlink_fill_info
  by_cases hf : read_status K ct &&& K.IPS_CONFIRMED = 0 ∨ read_status K ct &&& K.IPS_NAT_MASK = 0
  · by_cases hp : fill_info_pid pid_tgid = K.systemprobe_pid
    · simp [hf, hp]
    · simp [hf, hp, log_debug]
  · have hrc : (K.nf_conn_to_conntrack_tuples ct conntrack_tuple_t.zero
        conntrack_tuple_t.zero).1 ≠ 0 := by
      rcases h with h | h | h
      · exact absurd (Or.inl h) hf
      · exact absurd (Or.inr h) hf
      · exact h
    by_cases hp : fill_info_pid pid_tgid = K.systemprobe_pid
    · simp [hf, hp, hrc, log_debug]
    · simp [hf, hp, hrc, log_debug]

/-- The scenario of the spec: status CONFIRMED only, empty prior table; no
entry appears and the counter stays zero. -/
theorem C2_early_return_no_mutation_witness :
    (read_status K0 ct_confirmed_only &&& K0.IPS_CONFIRMED = 0 ∨
      read_status K0 ct_confirmed_only &&& K0.IPS_NAT_MASK = 0 ∨
      (K0.nf_conn_to_conntrack_tuples ct_confirmed_only conntrack_tuple_t.zero
        conntrack_tuple_t.zero).1 ≠ 0) ∧
    ((kprobe___nf_conntrack_hash_insert K0 ct_confirmed_only st_empty).conntrack
        = st_empty.conntrack ∧
      (kprobe___nf_conntrack_hash_insert K0 ct_confirmed_only st_empty).registers
        = st_empty.registers) ∧
    ((kprobe_ctnetlink_fill_info K0 pid_tgid_agent ct_confirmed_only st_empty).conntrack
        = st_empty.conntrack ∧
      (kprobe_ctnetlink_fill_info K0 pid_tgid_agent ct_confirmed_only st_empty).registers
        = st_empty.registers) :=
  ⟨Or.inr (Or.inl (by decide)),
    C2_early_return_no_mutation K0 ct_confirmed_only st_empty pid_tgid_agent
      (Or.inr (Or.inl (by decide)))⟩

/-- Claim C3.  For every record, every prior state and every caller whose pid
differs from `systemprobe_pid()`, the dump-path handler leaves the translation
table and the counter unchanged. -/
theorem C3_foreign_pid_no_mutation {nf_conn : Type} (K : Kernel nf_conn) (ct : nf_conn)
    (st : State) (pid_tgid : Nat)
    (hp : fill_info_pid pid_tgid ≠ K.systemprobe_pid) :
    (kprobe_ctnetlink_fill_info K pid_tgid ct st).conntrack = st.conntrack ∧
    (kprobe_ctnetlink_fill_info K pid_tgid ct st).registers = st.registers := by
  unfold kprobe_ctnetlink_fill_info
  simp [hp, log_debug]

/-- A confirmed NAT record dumped by a process other than the agent. -/
theorem C3_foreign_pid_no_mutation_witness :
    fill_info_pid pid_tgid_other ≠ K0.systemprobe_pid ∧
    (kprobe_ctnetlink_fill_info K0 pid_tgid_other ct_nat st_empty).conntrack
      = st_empty.conntrack ∧
    (kprobe_ctnetlink_fill_info K0 pid_tgid_other ct_nat st_empty).registers
      = st_empty.registers :=
  ⟨by decide, C3_foreign_pid_no_mutation K0 ct_nat st_empty pid_tgid_other (by decide)⟩

/-- Claim C4.  For every successful handler run (CONFIRMED and a NAT bit set,
extraction returns 0, and for the dump path the pid matches) the registers
counter afterwards is its value before plus 2; running a handler twice on the
same record, in any combination of the two handlers, raises it by 4. -/
theorem C4_counter_plus_two {nf_conn : Type} (K : Kernel nf_conn) (ct : nf_conn) (st : State)
    (pid_tgid : Nat) (orig reply : conntrack_tuple_t)
    (hc : read_status K ct &&& K.IPS_CONFIRMED ≠ 0)
    (hn : read_status K ct &&& K.IPS_NAT_MASK ≠ 0)
    (hx : K.nf_conn_to_conntrack_tuples ct conntrack_tuple_t.zero conntrack_tuple_t.zero
      = (0, orig, reply)) :
    (kprobe___nf_conntrack_hash_insert K ct st).registers = st.registers + 2 ∧
    (kprobe___nf_conntrack_hash_insert K ct
      (kprobe___nf_conntrack_hash_insert K ct st)).registers = st.registers + 4 ∧
    (fill_info_pid pid_tgid = K.systemprobe_pid →
      (kprobe_ctnetlink_fill_info K pid_tgid ct st).registers = st.registers + 2 ∧
      (kprobe_ctnetlink_fill_info K pid_tgid ct
        (kprobe_ctnetlink_fill_info K pid_tgid ct st)).registers = st.registers + 4 ∧
      (kprobe_ctnetlink_fill_info K pid_tgid ct
        (kprobe___nf_conntrack_hash_insert K ct st)).registers = st.registers + 4 ∧
      (kprobe___nf_conntrack_hash_insert K ct
        (kprobe_ctnetlink_fill_info K pid_tgid ct st)).registers = st.registers + 4) := by
  refine ⟨?_, ?_, fun hp => ⟨?_, ?_, ?_, ?_⟩⟩
  · rw [hash_insert_success K ct st orig reply hc hn hx]
  · rw [hash_insert_success K ct _ orig reply hc hn hx,
      hash_insert_success K ct st orig reply hc hn hx]
  · rw [fill_info_success K ct st pid_tgid orig reply hp hc hn hx]
  · rw [fill_info_success K ct _ pid_tgid orig reply hp hc hn hx,
      fill_info_success K ct st pid_tgid orig reply hp hc hn hx]
  · rw [fill_info_success K ct _ pid_tgid orig reply hp hc hn hx,
      hash_insert_success K ct st orig reply hc hn hx]
  · rw [hash_insert_success K ct _ orig reply hc hn hx,
      fill_info_success K ct st pid_tgid orig reply hp hc hn hx]

/-- The scenario record on a state whose counter is zero: 2 after one run, 4
after two. -/
theorem C4_counter_plus_two_witness :
    (read_status K0 ct_nat &&& K0.IPS_CONFIRMED ≠ 0 ∧
      read_status K0 ct_nat &&& K0.IPS_NAT_MASK ≠ 0 ∧
      K0.nf_conn_to_conntrack_tuples ct_nat conntrack_tuple_t.zero conntrack_tuple_t.zero
        = (0, orig0, reply0)) ∧
    ((kprobe___nf_conntrack_hash_insert K0 ct_nat st_empty).registers
        = st_empty.registers + 2 ∧
    (kprobe___nf_conntrack_hash_insert K0 ct_nat
      (kprobe___nf_conntrack_hash_insert K0 ct_nat st_empty)).registers
        = st_empty.registers + 4 ∧
    (fill_info_pid pid_tgid_agent = K0.systemprobe_pid →
      (kprobe_ctnetlink_fill_info K0 pid_tgid_agent ct_nat st_empty).registers
        = st_empty.registers + 2 ∧
      (kprobe_ctnetlink_fill_info K0 pid_tgid_agent ct_nat
        (kprobe_ctnetlink_fill_info K0 pid_tgid_agent ct_nat st_empty)).registers
          = st_empty.registers + 4 ∧
      (kprobe_ctnetlink_fill_info K0 pid_tgid_agent ct_nat
        (kprobe___nf_conntrack_hash_insert K0 ct_nat st_empty)).registers
          = st_empty.registers + 4 ∧
      (kprobe___nf_conntrack_hash_insert K0 ct_nat
        (kprobe_ctnetlink_fill_info K0 pid_tgid_agent ct_nat st_empty)).registers
          = st_empty.registers + 4)) :=
  ⟨⟨by decide, by decide, by decide⟩,
    C4_counter_plus_two K0 ct_nat st_empty pid_tgid_agent orig0 reply0
      (by decide) (by decide) (by decide)⟩

/-- Claim C5.  For every confirmed NAT record with successful extraction and
every prior state, running a handler twice on the same record, in any
combination of the confirmation-path handler and the dump-path handler called
by the agent pid, leaves the translation table equal to the table after one
run; and the table after one run is the same for both handlers. -/
theorem C5_table_idempotent {nf_conn : Type} (K : Kernel nf_conn) (ct : nf_conn) (st : State)
    (pid_tgid : Nat) (orig reply : conntrack_tuple_t)
    (hc : read_status K ct &&& K.IPS_CONFIRMED ≠ 0)
    (hn : read_status K ct &&& K.IPS_NAT_MASK ≠ 0)
    (hx : K.nf_conn_to_conntrack_tuples ct conntrack_tuple_t.zero conntrack_tuple_t.zero
      = (0, orig, reply)) :
    (kprobe___nf_conntrack_hash_insert K ct
      (kprobe___nf_conntrack_hash_insert K ct st)).conntrack
        = (kprobe___nf_conntrack_hash_insert K ct st).conntrack ∧
    (fill_info_pid pid_tgid = K.systemprobe_pid →
      (kprobe_ctnetlink_fill_info K pid_tgid ct st).conntrack
        = (kprobe___nf_conntrack_hash_insert K ct st).conntrack ∧
      (kprobe_ctnetlink_fill_info K pid_tgid ct
        (kprobe_ctnetlink_fill_info K pid_tgid ct st)).conntrack
          = (kprobe_ctnetlink_fill_info K pid_tgid ct st).conntrack ∧
      (kprobe_ctnetlink_fill_info K pid_tgid ct
        (kprobe___nf_conntrack_hash_insert K ct st)).conntrack
          = (kprobe___nf_conntrack_hash_insert K ct st).conntrack ∧
      (kprobe___nf_conntrack_hash_insert K ct
        (kprobe_ctnetlink_fill_info K pid_tgid ct st)).conntrack
          = (kprobe_ctnetlink_fill_info K pid_tgid ct st).conntrack) := by
  have hi := upsert_pair_idem st.conntrack orig reply
  refine ⟨?_, fun hp => ⟨?_, ?_, ?_, ?_⟩⟩
  · rw [hash_insert_success K ct _ orig reply hc hn hx,
      hash_insert_success K ct st orig reply hc hn hx]
    exact hi
  · rw [fill_info_success K ct st pid_tgid orig reply hp hc hn hx,
      hash_insert_success K ct st orig reply hc hn hx]
  · rw [fill_info_success K ct _ pid_tgid orig reply hp hc hn hx,
      fill_info_success K ct st pid_tgid orig reply hp hc hn hx]
    exact hi
  · rw [fill_info_success K ct _ pid_tgid orig reply hp hc hn hx,
      hash_insert_success K ct st orig reply hc hn hx]
    exact hi
  · rw [hash_insert_success K ct _ orig reply hc hn hx,
      fill_info_success K ct st pid_tgid orig reply hp hc hn hx]
    exact hi

/-- The scenario record processed twice on an empty table. -/
theorem C5_table_idempotent_witness :
    (read_status K0 ct_nat &&& K0.IPS_CONFIRMED ≠ 0 ∧
      read_status K0 ct_nat &&& K0.IPS_NAT_MASK ≠ 0 ∧
      K0.nf_conn_to_conntrack_tuples ct_nat conntrack_tuple_t.zero conntrack_tuple_t.zero
        = (0, orig0, reply0)) ∧
    ((kprobe___nf_conntrack_hash_insert K0 ct_nat
      (kprobe___nf_conntrack_hash_insert K0 ct_nat st_empty)).conntrack
        = (kprobe___nf_conntrack_hash_insert K0 ct_nat st_empty).conntrack ∧
    (fill_info_pid pid_tgid_agent = K0.systemprobe_pid →
      (kprobe_ctnetlink_fill_info K0 pid_tgid_agent ct_nat st_empty).conntrack
        = (kprobe___nf_conntrack_hash_insert K0 ct_nat st_empty).conntrack ∧
      (kprobe_ctnetlink_fill_info K0 pid_tgid_agent ct_nat
        (kprobe_ctnetlink_fill_info K0 pid_tgid_agent ct_nat st_empty)).conntrack
          = (kprobe_ctnetlink_fill_info K0 pid_tgid_agent ct_nat st_empty).conntrack ∧
      (kprobe_ctnetlink_fill_info K0 pid_tgid_agent ct_nat
        (kprobe___nf_conntrack_hash_insert K0 ct_nat st_empty)).conntrack
          = (kprobe___nf_conntrack_hash_insert K0 ct_nat st_empty).conntrack ∧
      (kprobe___nf_conntrack_hash_insert K0 ct_nat
        (kprobe_ctnetlink_fill_info K0 pid_tgid_agent ct_nat st_empty)).conntrack
          = (kprobe_ctnetlink_fill_info K0 pid_tgid_agent ct_nat st_empty).conntrack)) :=
  ⟨⟨by decide, by decide, by decide⟩,
    C5_table_idempotent K0 ct_nat st_empty pid_tgid_agent orig0 reply0
      (by decide) (by decide) (by decide)⟩

/-- Claim C7.  A successful upsert by either handler writes the forward entry
keyed by `orig` and the reverse entry keyed by `reply`, whatever the table
held under these keys before, and every other key of the translation table
has the same value, or the same absence, after the run as before it. -/
theorem C7_two_writes_frame {nf_conn : Type} (K : Kernel nf_conn) (ct : nf_conn) (st : State)
    (pid_tgid : Nat) (orig reply : conntrack_tuple_t)
    (hc : read_status K ct &&& K.IPS_CONFIRMED ≠ 0)
    (hn : read_status K ct &&& K.IPS_NAT_MASK ≠ 0)
    (hx : K.nf_conn_to_conntrack_tuples ct conntrack_tuple_t.zero conntrack_tuple_t.zero
      = (0, orig, reply)) :
    ((kprobe___nf_conntrack_hash_insert K ct st).conntrack orig = some reply ∧
      (kprobe___nf_conntrack_hash_insert K ct st).conntrack reply = some orig ∧
      ∀ k, k ≠ orig → k ≠ reply →
        (kprobe___nf_conntrack_hash_insert K ct st).conntrack k = st.conntrack k) ∧
    (fill_info_pid pid_tgid = K.systemprobe_pid →
      (kprobe_ctnetlink_fill_info K pid_tgid ct st).conntrack orig = some reply ∧
      (kprobe_ctnetlink_fill_info K pid_tgid ct st).conntrack reply = some orig ∧
      ∀ k, k ≠ orig → k ≠ reply →
        (kprobe_ctnetlink_fill_info K pid_tgid ct st).conntrack k = st.conntrack k) := by
  obtain ⟨h1, h2⟩ := upsert_pair_lookup st.conntrack orig reply
  refine ⟨?_, fun hp => ?_⟩
  · rw [hash_insert_success K ct st orig reply hc hn hx]
    exact ⟨h1, h2, fun k hk1 hk2 => upsert_pair_frame st.conntrack orig reply k hk1 hk2⟩
  · rw [fill_info_success K ct st pid_tgid orig reply hp hc hn hx]
    exact ⟨h1, h2, fun k hk1 hk2 => upsert_pair_frame st.conntrack orig reply k hk1 hk2⟩

/-- The scenario record on a table that already maps `orig0` to itself and
holds one unrelated entry: the entry under `orig0` is overwritten and the
unrelated one stays. -/
theorem C7_two_writes_frame_witness :
    (read_status K0 ct_nat &&& K0.IPS_CONFIRMED ≠ 0 ∧
      read_status K0 ct_nat &&& K0.IPS_NAT_MASK ≠ 0 ∧
      K0.nf_conn_to_conntrack_tuples ct_nat conntrack_tuple_t.zero conntrack_tuple_t.zero
        = (0, orig0, reply0)) ∧
    ((kprobe___nf_conntrack_hash_insert K0 ct_nat st_busy).conntrack orig0 = some reply0 ∧
      (kprobe___nf_conntrack_hash_insert K0 ct_nat st_busy).conntrack reply0 = some orig0 ∧
      ∀ k, k ≠ orig0 → k ≠ reply0 →
        (kprobe___nf_conntrack_hash_insert K0 ct_nat st_busy).conntrack k
          = st_busy.conntrack k) ∧
    (fill_info_pid pid_tgid_agent = K0.systemprobe_pid →
      (kprobe_ctnetlink_fill_info K0 pid_tgid_agent ct_nat st_busy).conntrack orig0
        = some reply0 ∧
      (kprobe_ctnetlink_fill_info K0 pid_tgid_agent ct_nat st_busy).conntrack reply0
        = some orig0 ∧
      ∀ k, k ≠ orig0 → k ≠ reply0 →
        (kprobe_ctnetlink_fill_info K0 pid_tgid_agent ct_nat st_busy).conntrack k
          = st_busy.conntrack k) :=
  ⟨⟨by decide, by decide, by decide⟩,
    C7_two_writes_frame K0 ct_nat st_busy pid_tgid_agent orig0 reply0
      (by decide) (by decide) (by decide)⟩

/-- For a 64-bit helper result the pid compared by the dump-path handler is
the upper half of the value. -/
theorem fill_info_pid_eq (v : Nat) (hv : v < 2 ^ 64) :
    fill_info_pid v = v / 2 ^ 32 ∧ fill_info_pid v = (v >>> 32) % 2 ^ 32 := by
  unfold fill_info_pid
  rw [Nat.mod_eq_of_lt hv, Nat.shiftRight_eq_div_pow]
  have h : v / 2 ^ 32 < 2 ^ 32 := by
    rw [Nat.div_lt_iff_lt_mul (by norm_num)]
    calc v < 2 ^ 64 := hv
      _ = 2 ^ 32 * 2 ^ 32 := by norm_num
  exact ⟨Nat.mod_eq_of_lt h, rfl⟩

/-- Past its pid filter the dump-path handler treats the table and the
counter as the confirmation-path handler does. -/
theorem fill_info_eq_hash_insert {nf_conn : Type} (K : Kernel nf_conn) (ct : nf_conn)
    (st : State) (pid_tgid : Nat) (hp : fill_info_pid pid_tgid = K.systemprobe_pid) :
    (kprobe_ctnetlink_fill_info K pid_tgid ct st).conntrack
      = (kprobe___nf_conntrack_hash_insert K ct st).conntrack ∧
    (kprobe_ctnetlink_fill_info K pid_tgid ct st).registers
      = (kprobe___nf_conntrack_hash_insert K ct st).registers := by
  unfold kprobe_ctnetlink_fill_info kprobe___nf_conntrack_hash_insert
  by_cases hf : read_status K ct &&& K.IPS_CONFIRMED = 0 ∨ read_status K ct &&& K.IPS_NAT_MASK = 0
  · simp [hp, hf]
  · by_cases hrc : (K.nf_conn_to_conntrack_tuples ct conntrack_tuple_t.zero
        conntrack_tuple_t.zero).1 = 0
    · simp [hp, hf, hrc, log_debug]
    · simp [hp, hf, hrc, log_debug]

/-- Claim C10.  For every 64-bit value `v` of `bpf_get_current_pid_tgid()` the
dump-path handler goes past its caller filter (it does not log the skip
message, and treats table and counter as the shared logic does) exactly when
`(v >> 32)` truncated to 32 bits equals `systemprobe_pid()`; and two calls
whose values have the same upper 32 bits end in the same state. -/
theorem C10_filter_uses_upper_half {nf_conn : Type} (K : Kernel nf_conn) (ct : nf_conn)
    (st : State) (v w : Nat) (hv : v < 2 ^ 64) (hw : w < 2 ^ 64) :
    ((kprobe_ctnetlink_fill_info K v ct st).debug_log
        ≠ st.debug_log ++ [log_line.fill_info_skip]
      ↔ (v >>> 32) % 2 ^ 32 = K.systemprobe_pid) ∧
    ((v >>> 32) % 2 ^ 32 = K.systemprobe_pid →
      (kprobe_ctnetlink_fill_info K v ct st).conntrack
        = (kprobe___nf_conntrack_hash_insert K ct st).conntrack ∧
      (kprobe_ctnetlink_fill_info K v ct st).registers
        = (kprobe___nf_conntrack_hash_insert K ct st).registers) ∧
    ((v >>> 32) % 2 ^ 32 ≠ K.systemprobe_pid →
      (kprobe_ctnetlink_fill_info K v ct st).conntrack = st.conntrack ∧
      (kprobe_ctnetlink_fill_info K v ct st).registers = st.registers) ∧
    (v / 2 ^ 32 = w / 2 ^ 32 →
      kprobe_ctnetlink_fill_info K v ct st = kprobe_ctnetlink_fill_info K w ct st) := by
  obtain ⟨hv1, hv2⟩ := fill_info_pid_eq v hv
  obtain ⟨hw1, _⟩ := fill_info_pid_eq w hw
  rw [← hv2]
  refine ⟨?_, fun hp => fill_info_eq_hash_insert K ct st v hp, fun hp => ?_, fun h => ?_⟩
  · unfold kprobe_ctnetlink_fill_info
    by_cases hp : fill_info_pid v = K.systemprobe_pid
    · by_cases hf : read_status K ct &&& K.IPS_CONFIRMED = 0 ∨
          read_status K ct &&& K.IPS_NAT_MASK = 0
      · simp [hp, hf]
      · by_cases hrc : (K.nf_conn_to_conntrack_tuples ct conntrack_tuple_t.zero
            conntrack_tuple_t.zero).1 = 0
        · simp [hp, hf, hrc, log_debug]
        · simp [hp, hf, hrc, log_debug]
    · simp [hp, log_debug]
  · unfold kprobe_ctnetlink_fill_info
    simp [hp, log_debug]
  · have hpid : fill_info_pid v = fill_info_pid w := by rw [hv1, hw1, h]
    unfold kprobe_ctnetlink_fill_info
    rw [hpid]

/-- Two calls of the agent from different threads (thread ids 7 and 12345). -/
theorem C10_filter_uses_upper_half_witness :
    (pid_tgid_agent < 2 ^ 64 ∧ pid_tgid_agent_thread < 2 ^ 64) ∧
    (((kprobe_ctnetlink_fill_info K0 pid_tgid_agent ct_nat st_empty).debug_log
        ≠ st_empty.debug_log ++ [log_line.fill_info_skip]
      ↔ (pid_tgid_agent >>> 32) % 2 ^ 32 = K0.systemprobe_pid) ∧
    ((pid_tgid_agent >>> 32) % 2 ^ 32 = K0.systemprobe_pid →
      (kprobe_ctnetlink_fill_info K0 pid_tgid_agent ct_nat st_empty).conntrack
        = (kprobe___nf_conntrack_hash_insert K0 ct_nat st_empty).conntrack ∧
      (kprobe_ctnetlink_fill_info K0 pid_tgid_agent ct_nat st_empty).registers
        = (kprobe___nf_conntrack_hash_insert K0 ct_nat st_empty).registers) ∧
    ((pid_tgid_agent >>> 32) % 2 ^ 32 ≠ K0.systemprobe_pid →
      (kprobe_ctnetlink_fill_info K0 pid_tgid_agent ct_nat st_empty).conntrack
        = st_empty.conntrack ∧
      (kprobe_ctnetlink_fill_info K0 pid_tgid_agent ct_nat st_empty).registers
        = st_empty.registers) ∧
    (pid_tgid_agent / 2 ^ 32 = pid_tgid_agent_thread / 2 ^ 32 →
      kprobe_ctnetlink_fill_info K0 pid_tgid_agent ct_nat st_empty
        = kprobe_ctnetlink_fill_info K0 pid_tgid_agent_thread ct_nat st_empty)) :=
  ⟨⟨by decide, by decide⟩,
    C10_filter_uses_upper_half K0 ct_nat st_empty pid_tgid_agent pid_tgid_agent_thread
      (by decide) (by decide)⟩

/-- The last observable state of the confirmation-path handler is its result. -/
theorem hash_insert_steps_last {nf_conn : Type} (K : Kernel nf_conn) (ct : nf_conn)
    (st : State) :
    (kprobe___nf_conntrack_hash_insert_steps K ct st).getLast?
      = some (kprobe___nf_conntrack_hash_insert K ct st) := by
  unfold kprobe___nf_conntrack_hash_insert_steps kprobe___nf_conntrack_hash_insert
  by_cases hf : read_status K ct &&& K.IPS_CONFIRMED = 0 ∨ read_status K ct &&& K.IPS_NAT_MASK = 0
  · simp [hf]
  · by_cases hrc : (K.nf_conn_to_conntrack_tuples ct conntrack_tuple_t.zero
        conntrack_tuple_t.zero).1 = 0
    · simp [hf, hrc]
    · simp [hf, hrc]

/-- The last observable state of the dump-path handler is its result. -/
theorem fill_info_steps_last {nf_conn : Type} (K : Kernel nf_conn) (pid_tgid : Nat)
    (ct : nf_conn) (st : State) :
    (kprobe_ctnetlink_fill_info_steps K pid_tgid ct st).getLast?
      = some (kprobe_ctnetlink_fill_info K pid_tgid ct st) := by
  unfold kprobe_ctnetlink_fill_info_steps kprobe_ctnetlink_fill_info
  by_cases hp : fill_info_pid pid_tgid = K.systemprobe_pid
  · by_cases hf : read_status K ct &&& K.IPS_CONFIRMED = 0 ∨
        read_status K ct &&& K.IPS_NAT_MASK = 0
    · simp [hp, hf]
    · by_cases hrc : (K.nf_conn_to_conntrack_tuples ct conntrack_tuple_t.zero
          conntrack_tuple_t.zero).1 = 0
      · simp [hp, hf, hrc]
      · simp [hp, hf, hrc]
  · simp [hp]

/-- The tables a reader can observe during a successful run of the
confirmation-path handler. -/
theorem hash_insert_steps_tables {nf_conn : Type} (K : Kernel nf_conn) (ct : nf_conn)
    (st : State) (orig reply : conntrack_tuple_t)
    (hc : read_status K ct &&& K.IPS_CONFIRMED ≠ 0)
    (hn : read_status K ct &&& K.IPS_NAT_MASK ≠ 0)
    (hx : K.nf_conn_to_conntrack_tuples ct conntrack_tuple_t.zero conntrack_tuple_t.zero
      = (0, orig, reply)) :
    (kprobe___nf_conntrack_hash_insert_steps K ct st).map State.conntrack =
      [st.conntrack, st.conntrack,
        bpf_map_update_with_telemetry st.conntrack orig reply,
        bpf_map_update_with_telemetry
          (bpf_map_update_with_telemetry st.conntrack orig reply) reply orig,
        bpf_map_update_with_telemetry
          (bpf_map_update_with_telemetry st.conntrack orig reply) reply orig] := by
  unfold kprobe___nf_conntrack_hash_insert_steps
  simp [hc, hn, hx, log_debug]

/-- The tables a reader can observe during a successful run of the dump-path
handler. -/
theorem fill_info_steps_tables {nf_conn : Type} (K : Kernel nf_conn) (ct : nf_conn)
    (st : State) (pid_tgid : Nat) (orig reply : conntrack_tuple_t)
    (hp : fill_info_pid pid_tgid = K.systemprobe_pid)
    (hc : read_status K ct &&& K.IPS_CONFIRMED ≠ 0)
    (hn : read_status K ct &&& K.IPS_NAT_MASK ≠ 0)
    (hx : K.nf_conn_to_conntrack_tuples ct conntrack_tuple_t.zero conntrack_tuple_t.zero
      = (0, orig, reply)) :
    (kprobe_ctnetlink_fill_info_steps K pid_tgid ct st).map State.conntrack =
      [st.conntrack, st.conntrack,
        bpf_map_update_with_telemetry st.conntrack orig reply,
        bpf_map_update_with_telemetry
          (bpf_map_update_with_telemetry st.conntrack orig reply) reply orig,
        bpf_map_update_with_telemetry
          (bpf_map_update_with_telemetry st.conntrack orig reply) reply orig] := by
  unfold kprobe_ctnetlink_fill_info_steps
  simp [hp, hc, hn, hx, log_debug]

/-- Of the tables observable during an upsert, each is the prior table or
holds the forward entry. -/
theorem upsert_tables_forward_first (m : conntrack_map) (orig reply : conntrack_tuple_t)
    (t : conntrack_map)
    (ht : t ∈ [m, m, bpf_map_update_with_telemetry m orig reply,
      bpf_map_update_with_telemetry (bpf_map_update_with_telemetry m orig reply) reply orig,
      bpf_map_update_with_telemetry (bpf_map_update_with_telemetry m orig reply) reply orig]) :
    t = m ∨ t orig = some reply := by
  simp only [List.mem_cons, List.mem_singleton, List.not_mem_nil, or_false] at ht
  rcases ht with h | h | h | h | h
  · exact Or.inl h
  · exact Or.inl h
  · right; subst h; simp [bpf_map_update_with_telemetry]
  · right; subst h; exact (upsert_pair_lookup m orig reply).1
  · right; subst h; exact (upsert_pair_lookup m orig reply).1

/-- Counterexample to claim C8.  On the scenario record and an empty table
the confirmation-path handler passes through an observable state, the one
after its first map update, in which the forward entry `orig0 -> reply0` is
present and the reverse entry under `reply0` is absent. -/
theorem C8_half_pair_observable :
    ∃ s ∈ kprobe___nf_conntrack_hash_insert_steps K0 ct_nat st_empty,
      s.conntrack orig0 = some reply0 ∧ s.conntrack reply0 = none := by
  decide

/-- Claim C8, amended.  With each table write of a handler taken as one step,
the tables a reader can observe during a successful upsert are, in order: the
prior table (on entry and after the log message), the prior table with the
forward entry written, and that table with the reverse entry written (after
the second write and after the counter increment).  So every observable state
either still has the prior table or already holds the forward entry, and the
last observable state, which is the result of the handler, holds both. -/
theorem C8_writes_in_order {nf_conn : Type} (K : Kernel nf_conn) (ct : nf_conn) (st : State)
    (pid_tgid : Nat) (orig reply : conntrack_tuple_t)
    (hc : read_status K ct &&& K.IPS_CONFIRMED ≠ 0)
    (hn : read_status K ct &&& K.IPS_NAT_MASK ≠ 0)
    (hx : K.nf_conn_to_conntrack_tuples ct conntrack_tuple_t.zero conntrack_tuple_t.zero
      = (0, orig, reply)) :
    ((kprobe___nf_conntrack_hash_insert_steps K ct st).map State.conntrack =
        [st.conntrack, st.conntrack,
          bpf_map_update_with_telemetry st.conntrack orig reply,
          bpf_map_update_with_telemetry
            (bpf_map_update_with_telemetry st.conntrack orig reply) reply orig,
          bpf_map_update_with_telemetry
            (bpf_map_update_with_telemetry st.conntrack orig reply) reply orig] ∧
      (∀ s ∈ kprobe___nf_conntrack_hash_insert_steps K ct st,
        s.conntrack = st.conntrack ∨ s.conntrack orig = some reply) ∧
      ∃ s, (kprobe___nf_conntrack_hash_insert_steps K ct st).getLast? = some s ∧
        s = kprobe___nf_conntrack_hash_insert K ct st ∧
        s.conntrack orig = some reply ∧ s.conntrack reply = some orig) ∧
    (fill_info_pid pid_tgid = K.systemprobe_pid →
      (kprobe_ctnetlink_fill_info_steps K pid_tgid ct st).map State.conntrack =
        [st.conntrack, st.conntrack,
          bpf_map_update_with_telemetry st.conntrack orig reply,
          bpf_map_update_with_telemetry
            (bpf_map_update_with_telemetry st.conntrack orig reply) reply orig,
          bpf_map_update_with_telemetry
            (bpf_map_update_with_telemetry st.conntrack orig reply) reply orig] ∧
      (∀ s ∈ kprobe_ctnetlink_fill_info_steps K pid_tgid ct st,
        s.conntrack = st.conntrack ∨ s.conntrack orig = some reply) ∧
      ∃ s, (kprobe_ctnetlink_fill_info_steps K pid_tgid ct st).getLast? = some s ∧
        s = kprobe_ctnetlink_fill_info K pid_tgid ct st ∧
        s.conntrack orig = some reply ∧ s.conntrack reply = some orig) := by
  obtain ⟨h1, h2⟩ := upsert_pair_lookup st.conntrack orig reply
  refine ⟨⟨hash_insert_steps_tables K ct st orig reply hc hn hx, fun s hs => ?_,
      _, hash_insert_steps_last K ct st, rfl, ?_⟩,
    fun hp => ⟨fill_info_steps_tables K ct st pid_tgid orig reply hp hc hn hx, fun s hs => ?_,
      _, fill_info_steps_last K pid_tgid ct st, rfl, ?_⟩⟩
  · apply upsert_tables_forward_first st.conntrack orig reply
    rw [← hash_insert_steps_tables K ct st orig reply hc hn hx]
    exact List.mem_map_of_mem _ hs
  · rw [hash_insert_success K ct st orig reply hc hn hx]
    exact ⟨h1, h2⟩
  · apply upsert_tables_forward_first st.conntrack orig reply
    rw [← fill_info_steps_tables K ct st pid_tgid orig reply hp hc hn hx]
    exact List.mem_map_of_mem _ hs
  · rw [fill_info_success K ct st pid_tgid orig reply hp hc hn hx]
    exact ⟨h1, h2⟩

/-- The scenario record on an empty table, for both handlers. -/
theorem C8_writes_in_order_witness :
    (read_status K0 ct_nat &&& K0.IPS_CONFIRMED ≠ 0 ∧
      read_status K0 ct_nat &&& K0.IPS_NAT_MASK ≠ 0 ∧
      K0.nf_conn_to_conntrack_tuples ct_nat conntrack_tuple_t.zero conntrack_tuple_t.zero
        = (0, orig0, reply0)) ∧
    (((kprobe___nf_conntrack_hash_insert_steps K0 ct_nat st_empty).map State.conntrack =
        [st_empty.conntrack, st_empty.conntrack,
          bpf_map_update_with_telemetry st_empty.conntrack orig0 reply0,
          bpf_map_update_with_telemetry
            (bpf_map_update_with_telemetry st_empty.conntrack orig0 reply0) reply0 orig0,
          bpf_map_update_with_telemetry
            (bpf_map_update_with_telemetry st_empty.conntrack orig0 reply0) reply0 orig0] ∧
      (∀ s ∈ kprobe___nf_conntrack_hash_insert_steps K0 ct_nat st_empty,
        s.conntrack = st_empty.conntrack ∨ s.conntrack orig0 = some reply0) ∧
      ∃ s, (kprobe___nf_conntrack_hash_insert_steps K0 ct_nat st_empty).getLast? = some s ∧
        s = kprobe___nf_conntrack_hash_insert K0 ct_nat st_empty ∧
        s.conntrack orig0 = some reply0 ∧ s.conntrack reply0 = some orig0) ∧
    (fill_info_pid pid_tgid_agent = K0.systemprobe_pid →
      (kprobe_ctnetlink_fill_info_steps K0 pid_tgid_agent ct_nat st_empty).map State.conntrack =
        [st_empty.conntrack, st_empty.conntrack,
          bpf_map_update_with_telemetry st_empty.conntrack orig0 reply0,
          bpf_map_update_with_telemetry
            (bpf_map_update_with_telemetry st_empty.conntrack orig0 reply0) reply0 orig0,
          bpf_map_update_with_telemetry
            (bpf_map_update_with_telemetry st_empty.conntrack orig0 reply0) reply0 orig0] ∧
      (∀ s ∈ kprobe_ctnetlink_fill_info_steps K0 pid_tgid_agent ct_nat st_empty,
        s.conntrack = st_empty.conntrack ∨ s.conntrack orig0 = some reply0) ∧
      ∃ s, (kprobe_ctnetlink_fill_info_steps K0 pid_tgid_agent ct_nat st_empty).getLast?
          = some s ∧
        s = kprobe_ctnetlink_fill_info K0 pid_tgid_agent ct_nat st_empty ∧
        s.conntrack orig0 = some reply0 ∧ s.conntrack reply0 = some orig0)) :=
  ⟨⟨by decide, by decide, by decide⟩,
    C8_writes_in_order K0 ct_nat st_empty pid_tgid_agent orig0 reply0
      (by decide) (by decide) (by decide)⟩

end Conntrack

/-! ## Theorems: the namespace accessor -/

namespace Netns

/-- A probe read of `size` bytes yields a value below `2 ^ (8 * size)`. -/
theorem bpf_probe_read_kernel_lt (M : KernelMem) (size src : Nat) :
    bpf_probe_read_kernel M size src < 2 ^ (8 * size) := by
  unfold bpf_probe_read_kernel
  split
  · exact Nat.mod_lt _ (by positivity)
  · positivity

/-- The synthetic kernel under its three historical layouts.  The CO-RE
variant finds the inode number 4026531840 on each, through its first branch on
the two layouts with `ns` and through its second branch on the oldest one; so
does the prebuilt variant with the offsets 48 and 120.  The runtime variant
finds it on the layouts with `ns`. -/
theorem synthetic_layouts_eval :
    COMPILE_CORE.get_netns_from_sock M0 L_possible_net 1000 = some 4026531840 ∧
    COMPILE_CORE.get_netns_from_sock M0 L_ptr_ns 1000 = some 4026531840 ∧
    COMPILE_CORE.get_netns_from_sock M0 L_proc_inum 1000 = some 4026531840 ∧
    COMPILE_RUNTIME.get_netns_from_sock M0 cfg_ns L_possible_net 1000 = some 4026531840 ∧
    COMPILE_RUNTIME.get_netns_from_sock M0 cfg_ns L_ptr_ns 1000 = some 4026531840 ∧
    COMPILE_PREBUILT.get_netns_from_sock M0 48 120 1000 = 4026531840 ∧
    COMPILE_CORE.get_netns_from_sock M0 L_none 1000 = some 0 ∧
    COMPILE_RUNTIME.get_netns_from_sock M0 cfg_no_ns L_ptr_ns 1000 = some 0 := by
  decide

/-- On every layout whose `struct net` has `ns`, built with `CONFIG_NET_NS`
against a source that has `ns_common.h`, the CO-RE variant, the runtime
variant and the prebuilt variant with the offsets of the layout return the
same 32-bit identifier, for every memory and every socket. -/
theorem strategies_agree_on_ns_inum (M : KernelMem) (L : KernelLayout) (cfg : Kconfig)
    (sk o_net o_ino : Nat)
    (hnet : L.sk_net = some o_net)
    (hino : L.ns_inum = some o_ino)
    (hcfg : cfg.CONFIG_NET_NS = true)
    (hhdr : cfg.ns_common_h = true) :
    offsets_correct L o_net o_ino ∧
    COMPILE_CORE.get_netns_from_sock M L sk
      = some (COMPILE_PREBUILT.get_netns_from_sock M o_net o_ino sk) ∧
    COMPILE_RUNTIME.get_netns_from_sock M cfg L sk
      = some (COMPILE_PREBUILT.get_netns_from_sock M o_net o_ino sk) ∧
    COMPILE_PREBUILT.get_netns_from_sock M o_net o_ino sk < 2 ^ 32 := by
  refine ⟨?_, ?_, ?_, ?_⟩
  · unfold offsets_correct KernelLayout.ino
    simp [hnet, hino]
  · unfold COMPILE_CORE.get_netns_from_sock COMPILE_PREBUILT.get_netns_from_sock
    simp [hnet, hino]
  · unfold COMPILE_RUNTIME.get_netns_from_sock COMPILE_PREBUILT.get_netns_from_sock
      LINUX_NS_COMMON_H
    simp [hnet, hino, hcfg, hhdr]
  · unfold COMPILE_PREBUILT.get_netns_from_sock
    exact bpf_probe_read_kernel_lt M 4 _

/-- On the oldest layout (plain pointer `skc_net`, no `ns`, `proc_inum`) the
CO-RE variant and the prebuilt variant with the offsets of the layout return
the same identifier. -/
theorem core_prebuilt_agree_on_proc_inum (M : KernelMem) (L : KernelLayout)
    (sk o_net o_ino : Nat)
    (hnet : L.sk_net = some o_net)
    (h0 : L.sk_net_net = false)
    (h1 : L.ns_inum = none)
    (h2 : L.proc_inum = some o_ino) :
    offsets_correct L o_net o_ino ∧
    COMPILE_CORE.get_netns_from_sock M L sk
      = some (COMPILE_PREBUILT.get_netns_from_sock M o_net o_ino sk) := by
  refine ⟨?_, ?_⟩
  · unfold offsets_correct KernelLayout.ino
    simp [hnet, h1, h2]
  · unfold COMPILE_CORE.get_netns_from_sock COMPILE_PREBUILT.get_netns_from_sock
    simp [hnet, h0, h1, h2]

/-- A strategy facing a shape it does not support returns 0: the CO-RE
variant when none of the probed members exists, the runtime variant when it
is built without `CONFIG_NET_NS`. -/
theorem unsupported_shape_zero (M : KernelMem) (sk : Nat) :
    (∀ L : KernelLayout, L.sk_net_net = false → L.ns_inum = none → L.proc_inum = none →
      COMPILE_CORE.get_netns_from_sock M L sk = some 0) ∧
    (∀ (cfg : Kconfig) (L : KernelLayout), cfg.ns_common_h = true →
      cfg.CONFIG_NET_NS = false →
      COMPILE_RUNTIME.get_netns_from_sock M cfg L sk = some 0) := by
  refine ⟨?_, ?_⟩
  · intro L h0 h1 h2
    unfold COMPILE_CORE.get_netns_from_sock
    simp [h0, h1, h2]
  · intro cfg L hh h0
    unfold COMPILE_RUNTIME.get_netns_from_sock LINUX_NS_COMMON_H
    simp [hh, h0]

/-- The read of `proc_inum` at line 84 is never part of a runtime build: after
the include of line 8 the guard `_LINUX_NS_COMMON_H` is defined or the build
has already failed.  So with `CONFIG_NET_NS`, a kernel source whose
`struct net` has no `ns` gives no runtime variant at all, whatever else it
has. -/
theorem runtime_never_reads_proc_inum (M : KernelMem) (cfg : Kconfig) (L : KernelLayout)
    (sk : Nat) (hcfg : cfg.CONFIG_NET_NS = true) (h1 : L.ns_inum = none) :
    LINUX_NS_COMMON_H cfg ≠ some false ∧
    COMPILE_RUNTIME.get_netns_from_sock M cfg L sk = none := by
  unfold COMPILE_RUNTIME.get_netns_from_sock LINUX_NS_COMMON_H
  cases hh : cfg.ns_common_h
  · simp
  · cases hs : L.sk_net <;> simp [hcfg, h1]

/-- Claim C6, evaluated where the code departs from it.  On the oldest layout
(namespace pointer at offset 48 of the socket, inode number in `proc_inum` at
offset 120, no `ns`), with the socket at address 1000 of the synthetic
memory, the CO-RE variant and the prebuilt variant with the right offsets
both return 4026531840.  The runtime variant, whose line 84 is written for
this layout, does not exist for it: against the source of such a kernel,
which has no `ns_common.h`, the include of line 8 fails; and were the header
there, its guard would select line 82, which names the absent `ns`. -/
theorem C6_runtime_misses_proc_inum :
    offsets_correct L_proc_inum 48 120 ∧
    COMPILE_PREBUILT.get_netns_from_sock M0 48 120 1000 = 4026531840 ∧
    COMPILE_CORE.get_netns_from_sock M0 L_proc_inum 1000 = some 4026531840 ∧
    COMPILE_RUNTIME.get_netns_from_sock M0 cfg_old L_proc_inum 1000 = none ∧
    COMPILE_RUNTIME.get_netns_from_sock M0 cfg_ns L_proc_inum 1000 = none := by
  decide

/-- Counterexample to claim C9.  The kernel keeps the namespace pointer at
offset 48 and the inode number at offset 120; the configured offsets 16 and 8
are wrong, yet both reads succeed on other data and the prebuilt variant
returns 7, not 0. -/
theorem C9_wrong_offsets_nonzero :
    ¬ offsets_correct L_possible_net 16 8 ∧
    COMPILE_PREBUILT.get_netns_from_sock M0 16 8 1000 = 7 ∧
    COMPILE_PREBUILT.get_netns_from_sock M0 16 8 1000 ≠ 0 := by
  decide

/-- Claim C9, amended.  The prebuilt variant is total and returns a 32-bit
value for every memory, socket address and pair of offsets, right or wrong;
it returns 0 whenever the read of the inode number faults, which includes the
case where the read of the namespace pointer faults and the address
`offset_ino()` itself is unreadable; and when both reads succeed it returns
the 32-bit value the second read finds. -/
theorem C9_zero_when_read_faults (M : KernelMem) (offset_netns offset_ino sk : Nat)
    (hfault : M.read 4 ((bpf_probe_read_kernel M 8 (sk + offset_netns) + offset_ino) % 2 ^ 64)
        = none ∨
      (M.read 8 ((sk + offset_netns) % 2 ^ 64) = none ∧
        M.read 4 (offset_ino % 2 ^ 64) = none)) :
    COMPILE_PREBUILT.get_netns_from_sock M offset_netns offset_ino sk = 0 ∧
    (∀ (a b s : Nat), COMPILE_PREBUILT.get_netns_from_sock M a b s < 2 ^ 32) ∧
    (∀ (a b s p v : Nat), M.read 8 ((s + a) % 2 ^ 64) = some p →
      M.read 4 ((p % 2 ^ 64 + b) % 2 ^ 64) = some v →
      COMPILE_PREBUILT.get_netns_from_sock M a b s = v % 2 ^ 32) := by
  refine ⟨?_, fun a b s => ?_, fun a b s p v h1 h2 => ?_⟩
  · unfold COMPILE_PREBUILT.get_netns_from_sock
    rcases hfault with h | ⟨h1, h2⟩
    · simp only [bpf_probe_read_kernel] at h ⊢
      rw [h]
    · simp only [bpf_probe_read_kernel, h1, Nat.zero_add, h2]
  · unfold COMPILE_PREBUILT.get_netns_from_sock
    exact bpf_probe_read_kernel_lt M 4 _
  · unfold COMPILE_PREBUILT.get_netns_from_sock
    simp only [bpf_probe_read_kernel, h1]
    norm_num at h2 ⊢
    rw [h2]

/-- Wrong offsets 24 and 8 on the synthetic kernel: offset 24 of the socket
is unreadable, and so is address 8. -/
theorem C9_zero_when_read_faults_witness :
    (M0.read 4 ((bpf_probe_read_kernel M0 8 (1000 + 24) + 8) % 2 ^ 64) = none ∨
      (M0.read 8 ((1000 + 24) % 2 ^ 64) = none ∧ M0.read 4 (8 % 2 ^ 64) = none)) ∧
    (COMPILE_PREBUILT.get_netns_from_sock M0 24 8 1000 = 0 ∧
      (∀ (a b s : Nat), COMPILE_PREBUILT.get_netns_from_sock M0 a b s < 2 ^ 32) ∧
      (∀ (a b s p v : Nat), M0.read 8 ((s + a) % 2 ^ 64) = some p →
        M0.read 4 ((p % 2 ^ 64 + b) % 2 ^ 64) = some v →
        COMPILE_PREBUILT.get_netns_from_sock M0 a b s = v % 2 ^ 32)) :=
  ⟨Or.inr ⟨by decide, by decide⟩,
    C9_zero_when_read_faults M0 24 8 1000 (Or.inr ⟨by decide, by decide⟩)⟩

end Netns
